import Mathlib

/-!
Shallow embedding of the vboot verified-boot decision engine
(src/firmware/2lib/2misc.c, src/firmware/lib20/misc.c,
src/firmware/lib/vboot_api_kernel.c).

The NV flag store and the secure-storage records are accessed by the
engine only through typed field getters/setters (vb2_nv_get/vb2_nv_set,
vb2_secdata_firmware_get/set, vb2_secdata_kernel_set); the storage layer
itself (2nvstorage.c, 2secdata_*.c) is not among the sources, so, per the
specification (sections 4.2 and 4.3), those accessors are modelled as
plain field reads/writes on typed records.  Machine integers are
modelled as Nat; every engine-relevant arithmetic operation here stays
far below 2^32, and the one left shift that could overflow is taken
modulo 2^32 explicitly.

Host callbacks (vb2ex_read_resource, vb2ex_tpm_clear_owner,
vb2ex_commit_data) and the cryptographic verification steps
(vb2_unpack_key_buffer, vb2_verify_keyblock, vb2_verify_fw_preamble,
vb2_verify_packed_key_inside) are out-of-scope capabilities per the
specification; each modelled operation takes their return values as an
explicit environment parameter, together with the data fields the C code
reads out of the structures they produce.
-/

namespace Vboot

/-! ### Constants

Firmware result codes (vb2_fw_result in 2api.h, not among the sources;
values are the stable ABI encodings used by the NV field). -/

def VB2_FW_RESULT_UNKNOWN : Nat := 0
def VB2_FW_RESULT_TRYING : Nat := 1
def VB2_FW_RESULT_SUCCESS : Nat := 2
def VB2_FW_RESULT_FAILURE : Nat := 3

/-- Recovery reason enumerants (2recovery_reasons.h is not among the
sources; the exact numeric values are opaque tags here, nonzero and
pairwise distinct, which is all the engine logic depends on). -/
def VB2_RECOVERY_NOT_REQUESTED : Nat := 0

def VB2_RECOVERY_RO_MANUAL : Nat := 0x02

def VB2_RECOVERY_FW_KEYBLOCK : Nat := 0x13

def VB2_RECOVERY_FW_KEY_ROLLBACK : Nat := 0x14

def VB2_RECOVERY_FW_PREAMBLE : Nat := 0x16

def VB2_RECOVERY_FW_ROLLBACK : Nat := 0x17

def VB2_RECOVERY_TPM_CLEAR_OWNER : Nat := 0x41

def VB2_RECOVERY_RW_TPM_W_ERROR : Nat := 0x54

/-- Error codes (2return_codes.h is not among the sources; opaque
nonzero, pairwise-distinct tags). -/
def VB2_ERROR_FW_KEYBLOCK_WORKBUF_ROOT_KEY : Nat := 0x10000101

def VB2_ERROR_FW_KEYBLOCK_WORKBUF_HEADER : Nat := 0x10000102

def VB2_ERROR_FW_KEYBLOCK_WORKBUF : Nat := 0x10000103

def VB2_ERROR_FW_KEYBLOCK_VERSION_RANGE : Nat := 0x10000104

def VB2_ERROR_FW_KEYBLOCK_VERSION_ROLLBACK : Nat := 0x10000105

def VB2_ERROR_FW_PREAMBLE2_DATA_KEY : Nat := 0x10000111

def VB2_ERROR_FW_PREAMBLE2_WORKBUF_HEADER : Nat := 0x10000112

def VB2_ERROR_FW_PREAMBLE2_WORKBUF : Nat := 0x10000113

def VB2_ERROR_FW_PREAMBLE_VERSION_RANGE : Nat := 0x10000114

def VB2_ERROR_FW_PREAMBLE_VERSION_ROLLBACK : Nat := 0x10000115

def VB2_ERROR_SECDATA_FIRMWARE_WRITE : Nat := 0x10000201

def VB2_ERROR_SECDATA_KERNEL_WRITE : Nat := 0x10000202

def VB2_ERROR_NV_WRITE : Nat := 0x10000203

def VBERROR_REBOOT_REQUIRED : Nat := 0x10000301

/-- Maximum version storable in 16 bits (2api.h). -/
def VB2_MAX_KEY_VERSION : Nat := 0xffff

def VB2_MAX_PREAMBLE_VERSION : Nat := 0xffff

/-! ### State records -/

/-- The NV flag store, as the typed field view exposed by
vb2_nv_get/vb2_nv_set (2nvstorage.c is not among the sources; the
specification, section 4.2, defines get/set as plain typed field
access, so the record holds the decoded field values directly). -/
structure Nv where
  recovery_request : Nat
  recovery_subcode : Nat
  try_count : Nat
  try_next : Nat
  fw_tried : Nat
  fw_result : Nat
  fw_prev_tried : Nat
  fw_prev_result : Nat
  dev_boot_usb : Nat
  dev_boot_legacy : Nat
  dev_boot_signed_only : Nat
  dev_default_boot : Nat
  disable_dev_request : Nat
  clear_tpm_owner_request : Nat
  clear_tpm_owner_done : Nat
  req_wipeout : Nat
  display_request : Nat
  diag_request : Nat
  kernel_max_rollforward : Nat
  deriving Repr, DecidableEq

/-- The engine-relevant fields of struct vb2_shared_data (2struct.h),
with the status bitmap and flags expanded into booleans. -/
structure Sd where
  status_nv_init : Bool
  status_secdata_firmware_init : Bool
  status_chose_slot : Bool
  flag_dev_mode_enabled : Bool
  flag_manual_recovery : Bool
  recovery_reason : Nat
  fw_slot : Nat
  last_fw_slot : Nat
  last_fw_result : Nat
  fw_version : Nat
  fw_version_secdata : Nat
  vblock_preamble_offset : Nat
  data_key_offset : Nat
  data_key_size : Nat
  preamble_offset : Nat
  preamble_size : Nat
  deriving Repr, DecidableEq

/-- The engine-relevant vb2_context flags (2api.h), expanded into
booleans. -/
structure CtxFlags where
  force_recovery_mode : Bool
  recovery_mode : Bool
  disable_developer_mode : Bool
  developer_mode : Bool
  force_wipeout_mode : Bool
  nofail_boot : Bool
  fw_slot_b : Bool
  deriving Repr, DecidableEq

/-- Combined engine state: context flags, shared data, NV store, the
GBB policy flags the engine reads, and the secure-storage records
(secdata firmware flags are expanded into their two defined bits). -/
structure VbState where
  ctx : CtxFlags
  sd : Sd
  nv : Nv
  gbb_disable_fw_rollback_check : Bool
  gbb_force_dev_switch_on : Bool
  secdata_fw_flag_dev_mode : Bool
  secdata_fw_flag_last_boot_developer : Bool
  secdata_fw_versions : Nat
  secdata_kernel_versions : Nat
  deriving Repr, DecidableEq

/-! ### vb2api_fail (2misc.c lines 84-131) -/

/-- Modelled from the spec: vb2_nv_init (2nvstorage.c, not among the
sources) validates the CRC and header of the NV record and resets it to
defaults on mismatch; in this typed-field model the record is always
well-formed, so initialization only marks the NV-init status bit
(specification section 4.2). -/
def vb2_nv_init (st : VbState) : VbState :=
  { st with sd.status_nv_init := true }

/-- The recovery-request recording tail of vb2api_fail (2misc.c lines
126-130): set reason and subcode only if no request is already
present. -/
def vb2_fail_set_recovery (st : VbState) (reason subcode : Nat) : VbState :=
  if st.nv.recovery_request = 0 then
    { st with nv.recovery_request := reason, nv.recovery_subcode := subcode }
  else
    st

/-- vb2api_fail (2misc.c lines 84-131).  Reason and subcode are uint8_t
parameters; callers truncate wider error codes at the call site. -/
def vb2api_fail (st : VbState) (reason subcode : Nat) : VbState :=
  let st : VbState := if st.sd.status_nv_init then st else vb2_nv_init st
  if st.sd.status_chose_slot then
    let st : VbState := { st with
      nv.fw_result := VB2_FW_RESULT_FAILURE,
      nv.try_count := 0,
      nv.try_next := 1 - st.sd.fw_slot }
    if st.sd.last_fw_slot ≠ 1 - st.sd.fw_slot ∨
       st.sd.last_fw_result ≠ VB2_FW_RESULT_FAILURE then
      st
    else
      vb2_fail_set_recovery st reason subcode
  else
    vb2_fail_set_recovery st reason subcode

/-! ### vb2_check_recovery (2misc.c lines 133-170) -/

/-- vb2_check_recovery (2misc.c lines 133-170). -/
def vb2_check_recovery (st : VbState) : VbState :=
  let reason := st.nv.recovery_request
  let subcode := st.nv.recovery_subcode
  let st : VbState := if st.sd.recovery_reason = 0 then
      { st with sd.recovery_reason := reason }
    else st
  let st : VbState := if st.ctx.force_recovery_mode then
      let st : VbState := if subcode ≠ 0 ∧ st.sd.recovery_reason = 0 then
          { st with sd.recovery_reason := subcode }
        else
          { st with sd.recovery_reason := VB2_RECOVERY_RO_MANUAL }
      { st with sd.flag_manual_recovery := true }
    else st
  if st.sd.recovery_reason ≠ 0 then
    { st with ctx.recovery_mode := true }
  else st

/-! ### vb2_select_fw_slot (2misc.c lines 329-382) -/

/-- vb2_select_fw_slot (2misc.c lines 329-382).  Always returns
VB2_SUCCESS in the source, so only the state is returned here. -/
def vb2_select_fw_slot (st : VbState) : VbState :=
  let st : VbState := { st with
    sd.last_fw_slot := st.nv.fw_tried,
    sd.last_fw_result := st.nv.fw_result }
  let st : VbState := { st with
    nv.fw_prev_tried := st.sd.last_fw_slot,
    nv.fw_prev_result := st.sd.last_fw_result }
  let st : VbState := { st with nv.fw_result := VB2_FW_RESULT_UNKNOWN }
  let st : VbState := { st with sd.fw_slot := st.nv.try_next }
  let tries := st.nv.try_count
  let st : VbState := if st.sd.last_fw_result = VB2_FW_RESULT_TRYING ∧
               st.sd.last_fw_slot = st.sd.fw_slot ∧ tries = 0 then
      let st : VbState := { st with sd.fw_slot := 1 - st.sd.fw_slot }
      { st with nv.try_next := st.sd.fw_slot }
    else st
  let st : VbState := if tries > 0 then
      let st : VbState := { st with nv.fw_result := VB2_FW_RESULT_TRYING }
      if ¬ st.ctx.nofail_boot then
        { st with nv.try_count := tries - 1 }
      else st
    else st
  let st : VbState := { st with nv.fw_tried := st.sd.fw_slot }
  let st : VbState := if st.sd.fw_slot ≠ 0 then
      { st with ctx.fw_slot_b := true }
    else st
  { st with sd.status_chose_slot := true }

/-! ### vb2_check_tpm_clear (2misc.c lines 301-327) -/

/-- vb2_check_tpm_clear (2misc.c lines 301-327).  tpm_clear_rv is the
return value of the host callback vb2ex_tpm_clear_owner (0 means
success). -/
def vb2_check_tpm_clear (tpm_clear_rv : Nat) (st : VbState) :
    Except Nat Unit × VbState :=
  if st.nv.clear_tpm_owner_request = 0 then
    (Except.ok (), st)
  else
    let st : VbState := { st with nv.clear_tpm_owner_request := 0 }
    if tpm_clear_rv ≠ 0 then
      (Except.error tpm_clear_rv,
        vb2api_fail st VB2_RECOVERY_TPM_CLEAR_OWNER (tpm_clear_rv % 256))
    else
      (Except.ok (), { st with nv.clear_tpm_owner_done := 1 })

/-! ### vb2_check_dev_switch (2misc.c lines 201-299) -/

/-- The effective developer-mode decision computed inside
vb2_check_dev_switch (2misc.c lines 211-240): the secdata dev-mode flag
after the disable-dev request and the caller's disable flag are applied,
overlaid with the GBB force-dev flag. -/
def dev_switch_is_dev (st : VbState) : Bool :=
  let disable_req :=
    st.sd.status_secdata_firmware_init && (st.nv.disable_dev_request != 0)
  let dev := if disable_req then false else st.secdata_fw_flag_dev_mode
  let dev := if st.ctx.disable_developer_mode then false else dev
  dev || st.gbb_force_dev_switch_on

/-- vb2_check_dev_switch (2misc.c lines 201-299).  tpm_clear_rv is the
return value of vb2ex_tpm_clear_owner for the dev-transition owner
clear; the secdata firmware FLAGS field is modelled by its two defined
bits (dev_mode, last_boot_developer), so the final comparison of new
versus old flags compares those two bits (the source modifies no other
bit of the word).  When secdata_firmware is not initialized,
vb2_secdata_firmware_get is modelled from the spec (section 4.3) as
returning the stored field contents; the function only consults
valid_secdata for the dev-disable request and the failure path, exactly
as the source does. -/
def vb2_check_dev_switch (tpm_clear_rv : Nat) (st : VbState) :
    Except Nat Unit × VbState :=
  let valid_secdata := st.sd.status_secdata_firmware_init
  let old_dev := st.secdata_fw_flag_dev_mode
  let old_lbd := st.secdata_fw_flag_last_boot_developer
  let disable_req := valid_secdata && (st.nv.disable_dev_request != 0)
  let st1 : VbState := if disable_req then
      { st with nv.disable_dev_request := 0 }
    else st
  let dev1 := if disable_req then false else old_dev
  let dev2 := if st1.ctx.disable_developer_mode then false else dev1
  let is_dev := dev2 || st1.gbb_force_dev_switch_on
  let st2 : VbState := if is_dev then
      { st1 with
        sd.flag_dev_mode_enabled := true,
        ctx.developer_mode := true }
    else
      { st1 with
        nv.dev_boot_usb := 0,
        nv.dev_boot_legacy := 0,
        nv.dev_boot_signed_only := 0,
        nv.dev_default_boot := 0 }
  let st3 : VbState := if st2.ctx.force_wipeout_mode then
      { st2 with nv.req_wipeout := 1 }
    else st2
  if dev2 != old_dev || is_dev != old_lbd then
    if valid_secdata && (tpm_clear_rv != 0) then
      (Except.error tpm_clear_rv,
        vb2api_fail st3 VB2_RECOVERY_TPM_CLEAR_OWNER (tpm_clear_rv % 256))
    else
      (Except.ok (), { st3 with
        secdata_fw_flag_dev_mode := dev2,
        secdata_fw_flag_last_boot_developer := is_dev })
  else
    (Except.ok (), st3)

/-! ### vb2_load_fw_keyblock (lib20/misc.c lines 68-190) -/

/-- Environment for vb2_load_fw_keyblock: outcomes of the work-buffer
allocations, the host resource reads, and the crypto steps, plus the
fields the source reads out of the keyblock produced by those steps.
A return value of 0 means success. -/
structure FwKeyblockEnv where
  wb_root_key_ok : Bool
  read_root_key_rv : Nat
  unpack_root_key_rv : Nat
  wb_header_ok : Bool
  read_header_rv : Nat
  wb_full_ok : Bool
  read_full_rv : Nat
  verify_keyblock_rv : Nat
  key_version : Nat
  keyblock_size : Nat
  packed_key_inside_rv : Nat
  key_data_offset : Nat
  data_key_key_offset : Nat
  data_key_key_size : Nat
  deriving Repr, DecidableEq

/-- vb2_load_fw_keyblock (lib20/misc.c lines 68-190).  env.key_version
is kb.data_key.key_version, env.keyblock_size is kb.keyblock_size,
env.key_data_offset is vb2_offset_of(sd, key_data), and the last two
env fields are kb.data_key.key_offset and kb.data_key.key_size. -/
def vb2_load_fw_keyblock (env : FwKeyblockEnv) (st : VbState) :
    Except Nat Unit × VbState :=
  if ¬ env.wb_root_key_ok then
    (Except.error VB2_ERROR_FW_KEYBLOCK_WORKBUF_ROOT_KEY, st)
  else if env.read_root_key_rv ≠ 0 then
    (Except.error env.read_root_key_rv, st)
  else if env.unpack_root_key_rv ≠ 0 then
    (Except.error env.unpack_root_key_rv, st)
  else if ¬ env.wb_header_ok then
    (Except.error VB2_ERROR_FW_KEYBLOCK_WORKBUF_HEADER, st)
  else if env.read_header_rv ≠ 0 then
    (Except.error env.read_header_rv, st)
  else if ¬ env.wb_full_ok then
    (Except.error VB2_ERROR_FW_KEYBLOCK_WORKBUF, st)
  else if env.read_full_rv ≠ 0 then
    (Except.error env.read_full_rv, st)
  else if env.verify_keyblock_rv ≠ 0 then
    (Except.error env.verify_keyblock_rv,
      vb2api_fail st VB2_RECOVERY_FW_KEYBLOCK (env.verify_keyblock_rv % 256))
  else
    let rv : Nat := if env.key_version > VB2_MAX_KEY_VERSION then
        VB2_ERROR_FW_KEYBLOCK_VERSION_RANGE
      else 0
    let rv : Nat :=
      if rv = 0 ∧ env.key_version < st.sd.fw_version_secdata / 2 ^ 16 then
        if st.gbb_disable_fw_rollback_check then rv
        else VB2_ERROR_FW_KEYBLOCK_VERSION_ROLLBACK
      else rv
    if rv ≠ 0 then
      (Except.error rv, vb2api_fail st VB2_RECOVERY_FW_KEY_ROLLBACK (rv % 256))
    else
      let st : VbState := { st with
        sd.fw_version := env.key_version * 2 ^ 16 % 2 ^ 32,
        sd.vblock_preamble_offset := env.keyblock_size }
      if env.packed_key_inside_rv ≠ 0 then
        (Except.error env.packed_key_inside_rv, st)
      else
        (Except.ok (), { st with
          sd.data_key_offset := env.key_data_offset,
          sd.data_key_size := env.data_key_key_offset + env.data_key_key_size })

/-! ### vb2_load_fw_preamble (lib20/misc.c lines 192-308) -/

/-- Environment for vb2_load_fw_preamble: outcomes of the crypto steps,
work-buffer allocations and host reads, plus the fields the source
reads out of the preamble.  A return value of 0 means success. -/
structure FwPreambleEnv where
  unpack_key_rv : Nat
  wb_header_ok : Bool
  read_header_rv : Nat
  wb_full_ok : Bool
  read_full_rv : Nat
  verify_preamble_rv : Nat
  firmware_version : Nat
  preamble_size : Nat
  preamble_offset : Nat
  deriving Repr, DecidableEq

/-- vb2_load_fw_preamble (lib20/misc.c lines 192-308).
env.firmware_version is pre.firmware_version, env.preamble_size is
pre.preamble_size, env.preamble_offset is vb2_offset_of(sd, pre). -/
def vb2_load_fw_preamble (env : FwPreambleEnv) (st : VbState) :
    Except Nat Unit × VbState :=
  if st.sd.data_key_size = 0 then
    (Except.error VB2_ERROR_FW_PREAMBLE2_DATA_KEY, st)
  else if env.unpack_key_rv ≠ 0 then
    (Except.error env.unpack_key_rv, st)
  else if ¬ env.wb_header_ok then
    (Except.error VB2_ERROR_FW_PREAMBLE2_WORKBUF_HEADER, st)
  else if env.read_header_rv ≠ 0 then
    (Except.error env.read_header_rv, st)
  else if ¬ env.wb_full_ok then
    (Except.error VB2_ERROR_FW_PREAMBLE2_WORKBUF, st)
  else if env.read_full_rv ≠ 0 then
    (Except.error env.read_full_rv, st)
  else if env.verify_preamble_rv ≠ 0 then
    (Except.error env.verify_preamble_rv,
      vb2api_fail st VB2_RECOVERY_FW_PREAMBLE (env.verify_preamble_rv % 256))
  else
    let rv : Nat := if env.firmware_version > VB2_MAX_PREAMBLE_VERSION then
        VB2_ERROR_FW_PREAMBLE_VERSION_RANGE
      else 0
    let st : VbState :=
      { st with sd.fw_version := st.sd.fw_version ||| env.firmware_version }
    let rv : Nat := if rv = 0 ∧ st.sd.fw_version < st.sd.fw_version_secdata then
        if st.gbb_disable_fw_rollback_check then rv
        else VB2_ERROR_FW_PREAMBLE_VERSION_ROLLBACK
      else rv
    if rv ≠ 0 then
      (Except.error rv, vb2api_fail st VB2_RECOVERY_FW_ROLLBACK (rv % 256))
    else
      let st : VbState :=
        if st.sd.fw_version > st.sd.fw_version_secdata ∧
           st.sd.last_fw_slot = st.sd.fw_slot ∧
           st.sd.last_fw_result = VB2_FW_RESULT_SUCCESS then
          { st with
            sd.fw_version_secdata := st.sd.fw_version,
            secdata_fw_versions := st.sd.fw_version }
        else st
      (Except.ok (), { st with
        sd.preamble_offset := env.preamble_offset,
        sd.preamble_size := env.preamble_size })

/-! ### VbBootNormal (vboot_api_kernel.c lines 168-223) -/

/-- The vboot1 shared-data fields VbBootNormal reads and writes. -/
structure Vb1Shared where
  kernel_version_tpm : Nat
  kernel_version_tpm_start : Nat
  deriving Repr, DecidableEq

/-- Environment for VbBootNormal: the return value of VbTryLoadKernel,
the NV store as VbTryLoadKernel leaves it (the kernel pipeline is an
external collaborator per the specification and may record failures in
NV), and shared.kernel_version_tpm as LoadKernel leaves it. -/
structure BootNormalEnv where
  load_rv : Nat
  nv_after_load : Nv
  kernel_version_tpm_after_load : Nat
  deriving Repr, DecidableEq

/-- vb2_reset_nv_requests (vboot_api_kernel.c lines 149-166): clears
pending display/diagnostic requests, reporting whether a reboot is
needed. -/
def vb2_reset_nv_requests (nv : Nv) : Bool × Nv :=
  let need1 := nv.display_request ≠ 0
  let nv : Nv := if nv.display_request ≠ 0 then
      { nv with display_request := 0 }
    else nv
  let need2 := need1 ∨ nv.diag_request ≠ 0
  let nv : Nv := if nv.diag_request ≠ 0 then
      { nv with diag_request := 0 }
    else nv
  (need2, nv)

/-- VbBootNormal (vboot_api_kernel.c lines 168-223).  Returns the
result code together with the NV store, the vboot1 shared fields, and
the secdata kernel version counter.  max_rollforward is read from NV at
entry, before VbTryLoadKernel runs, exactly as in the source. -/
def VbBootNormal (env : BootNormalEnv) (nv : Nv) (shared : Vb1Shared)
    (secdata_kernel_versions : Nat) : Nat × Nv × Vb1Shared × Nat :=
  let max_rollforward := nv.kernel_max_rollforward
  let (need_reboot, nv) := vb2_reset_nv_requests nv
  if need_reboot then
    (VBERROR_REBOOT_REQUIRED, nv, shared, secdata_kernel_versions)
  else
    let rv := env.load_rv
    let nv := env.nv_after_load
    let shared : Vb1Shared :=
      { shared with kernel_version_tpm := env.kernel_version_tpm_after_load }
    if nv.fw_result = VB2_FW_RESULT_TRYING then
      (rv, nv, shared, secdata_kernel_versions)
    else
      let max_rollforward :=
        if max_rollforward < shared.kernel_version_tpm_start then
          shared.kernel_version_tpm_start
        else max_rollforward
      let shared : Vb1Shared :=
        if shared.kernel_version_tpm > max_rollforward then
          { shared with kernel_version_tpm := max_rollforward }
        else shared
      if shared.kernel_version_tpm > shared.kernel_version_tpm_start then
        (rv, nv, shared, shared.kernel_version_tpm)
      else
        (rv, nv, shared, secdata_kernel_versions)

/-! ### vb2_commit_data (vboot_api_kernel.c lines 293-334) -/

/-- Outcome of vb2_commit_data: a returned error code (0 is
VB2_SUCCESS), or death via VB2_DIE. -/
inductive CommitOutcome where
  | ret (rv : Nat)
  | died
  deriving Repr, DecidableEq

/-- Environment for vb2_commit_data: the results of the first and (if
made) second invocation of the host callback vb2ex_commit_data.  The
source discards the second result, returning the original error. -/
structure CommitEnv where
  rv1 : Nat
  rv2 : Nat
  deriving Repr, DecidableEq

/-- Modelled from the spec: VB2_REC_OR_DIE (2misc.h, not among the
sources) logs and continues when the context is already in recovery
mode and otherwise halts via VB2_DIE (specification sections 4.9 and
7).  Returns true when the caller may continue. -/
def vb2_rec_or_die_continues (st : VbState) : Bool :=
  st.ctx.recovery_mode

/-- vb2_commit_data (vboot_api_kernel.c lines 293-334).  The middle
component of the result counts the invocations of vb2ex_commit_data,
so that the retry-once contract is observable. -/
def vb2_commit_data (env : CommitEnv) (st : VbState) :
    CommitOutcome × Nat × VbState :=
  let rv := env.rv1
  if rv = 0 then
    (CommitOutcome.ret 0, 1, st)
  else if rv = VB2_ERROR_SECDATA_FIRMWARE_WRITE then
    if ¬ st.ctx.recovery_mode then
      (CommitOutcome.ret rv, 2,
        vb2api_fail st VB2_RECOVERY_RW_TPM_W_ERROR (rv % 256))
    else
      (CommitOutcome.ret 0, 1, st)
  else if rv = VB2_ERROR_SECDATA_KERNEL_WRITE then
    if ¬ st.ctx.recovery_mode then
      (CommitOutcome.ret rv, 2,
        vb2api_fail st VB2_RECOVERY_RW_TPM_W_ERROR (rv % 256))
    else
      (CommitOutcome.ret 0, 1, st)
  else
    if vb2_rec_or_die_continues st then
      (CommitOutcome.ret 0, 1, st)
    else
      (CommitOutcome.died, 1, st)

/-! ### Helper lemmas and concrete states -/

/-- Fields of the state that vb2api_fail never touches: the secure
storage counters, the developer-boot NV options, and the
clear-TPM-owner NV fields. -/
theorem vb2api_fail_untouched (st : VbState) (r s : Nat) :
    (vb2api_fail st r s).secdata_fw_versions = st.secdata_fw_versions ∧
    (vb2api_fail st r s).secdata_kernel_versions = st.secdata_kernel_versions ∧
    (vb2api_fail st r s).nv.dev_boot_usb = st.nv.dev_boot_usb ∧
    (vb2api_fail st r s).nv.dev_boot_legacy = st.nv.dev_boot_legacy ∧
    (vb2api_fail st r s).nv.dev_boot_signed_only = st.nv.dev_boot_signed_only ∧
    (vb2api_fail st r s).nv.dev_default_boot = st.nv.dev_default_boot ∧
    (vb2api_fail st r s).nv.clear_tpm_owner_request =
      st.nv.clear_tpm_owner_request ∧
    (vb2api_fail st r s).nv.clear_tpm_owner_done =
      st.nv.clear_tpm_owner_done := by
  simp only [vb2api_fail, vb2_fail_set_recovery, vb2_nv_init]
  repeat' split
  all_goals simp

/-- On the recovery path of vb2api_fail, the recovery request and
subcode are written when no request is present and preserved
otherwise. -/
theorem vb2_fail_set_recovery_spec (st : VbState) (r s : Nat) :
    ((vb2_fail_set_recovery st r s).nv.recovery_request =
      if st.nv.recovery_request = 0 then r else st.nv.recovery_request) ∧
    ((vb2_fail_set_recovery st r s).nv.recovery_subcode =
      if st.nv.recovery_request = 0 then s else st.nv.recovery_subcode) := by
  simp only [vb2_fail_set_recovery]
  split <;> simp_all

/-- vb2api_fail leaves the secdata firmware version counter alone, as
an equation usable for rewriting. -/
theorem vb2api_fail_secdata_fw (st : VbState) (r s : Nat) :
    (vb2api_fail st r s).secdata_fw_versions = st.secdata_fw_versions :=
  (vb2api_fail_untouched st r s).1

/-- All-zero NV store. -/
def nv0 : Nv :=
  { recovery_request := 0, recovery_subcode := 0, try_count := 0,
    try_next := 0, fw_tried := 0, fw_result := 0, fw_prev_tried := 0,
    fw_prev_result := 0, dev_boot_usb := 0, dev_boot_legacy := 0,
    dev_boot_signed_only := 0, dev_default_boot := 0,
    disable_dev_request := 0, clear_tpm_owner_request := 0,
    clear_tpm_owner_done := 0, req_wipeout := 0, display_request := 0,
    diag_request := 0, kernel_max_rollforward := 0 }

/-- All-zero shared data. -/
def sd0 : Sd :=
  { status_nv_init := false, status_secdata_firmware_init := false,
    status_chose_slot := false, flag_dev_mode_enabled := false,
    flag_manual_recovery := false, recovery_reason := 0, fw_slot := 0,
    last_fw_slot := 0, last_fw_result := 0, fw_version := 0,
    fw_version_secdata := 0, vblock_preamble_offset := 0,
    data_key_offset := 0, data_key_size := 0, preamble_offset := 0,
    preamble_size := 0 }

/-- All-clear context flags. -/
def ctx0 : CtxFlags :=
  { force_recovery_mode := false, recovery_mode := false,
    disable_developer_mode := false, developer_mode := false,
    force_wipeout_mode := false, nofail_boot := false,
    fw_slot_b := false }

/-- Base state: everything zero or clear. -/
def st0 : VbState :=
  { ctx := ctx0, sd := sd0, nv := nv0,
    gbb_disable_fw_rollback_check := false,
    gbb_force_dev_switch_on := false,
    secdata_fw_flag_dev_mode := false,
    secdata_fw_flag_last_boot_developer := false,
    secdata_fw_versions := 0, secdata_kernel_versions := 0 }

/-! ### Claim theorems -/

/-- State for the C3 counterexample: NV initialized, a slot chosen
(slot 0), previous boot on the same slot 0 ended in SUCCESS, and no
recovery request pending. -/
def exC3 : VbState :=
  { st0 with
    sd.status_nv_init := true,
    sd.status_chose_slot := true,
    sd.last_fw_slot := 0,
    sd.last_fw_result := VB2_FW_RESULT_SUCCESS }

/-- Claim C3 counterexample: with a slot chosen and the alternate slot
not having failed on the previous boot, vb2api_fail(5, 6) returns after
updating the try-state and does not record recovery reason 5 or
subcode 6, even though nv.recovery_request was zero. -/
theorem api_fail_recovery_request_cex :
    ¬((vb2api_fail exC3 5 6).nv.recovery_request = 5 ∧
      (vb2api_fail exC3 5 6).nv.recovery_subcode = 6) := by
  decide

/-- Claim C3 (amended): vb2api_fail(R, S) sets nv.recovery_request = R
and nv.recovery_subcode = S when nv.recovery_request is zero, provided
no slot has been chosen, or a slot was chosen and the alternate slot
already failed on the previous boot; whenever nv.recovery_request is
already non-zero, neither field changes. -/
theorem api_fail_recovery_request (st : VbState) (r s : Nat) :
    (st.nv.recovery_request ≠ 0 →
      (vb2api_fail st r s).nv.recovery_request = st.nv.recovery_request ∧
      (vb2api_fail st r s).nv.recovery_subcode = st.nv.recovery_subcode) ∧
    (st.nv.recovery_request = 0 →
      (st.sd.status_chose_slot = false ∨
        (st.sd.last_fw_slot = 1 - st.sd.fw_slot ∧
         st.sd.last_fw_result = VB2_FW_RESULT_FAILURE)) →
      (vb2api_fail st r s).nv.recovery_request = r ∧
      (vb2api_fail st r s).nv.recovery_subcode = s) := by
  simp only [vb2api_fail, vb2_fail_set_recovery, vb2_nv_init]
  repeat' split
  all_goals simp_all
  all_goals tauto

/-- Claim C3 witness: from the base state (no slot chosen, no pending
request), vb2api_fail(5, 6) records reason 5 and subcode 6. -/
theorem api_fail_recovery_request_witness :
    (vb2api_fail st0 5 6).nv.recovery_request = 5 ∧
    (vb2api_fail st0 5 6).nv.recovery_subcode = 6 :=
  (api_fail_recovery_request st0 5 6).2 (by decide) (Or.inl (by decide))

/-- State for the C4 counterexample: a reason (5) already recorded by a
prior phase, manual recovery forced, no NV request or subcode. -/
def exC4 : VbState :=
  { st0 with
    sd.recovery_reason := 5,
    ctx.force_recovery_mode := true }

/-- Claim C4 counterexample: with a prior-phase reason 5 present and
manual recovery forced, the resulting reason is VB2_RECOVERY_RO_MANUAL,
not the prior reason, so rule (a) does not take priority as the claim
states. -/
theorem check_recovery_priority_cex :
    (vb2_check_recovery exC4).sd.recovery_reason = VB2_RECOVERY_RO_MANUAL ∧
    (vb2_check_recovery exC4).sd.recovery_reason ≠
      exC4.sd.recovery_reason := by
  decide

/-- Claim C4 (amended): when the manual-recovery context flag is set,
the resulting reason is the nv.recovery_subcode if no reason is present
from a prior phase or from nv.recovery_request and the subcode is
non-zero, and VB2_RECOVERY_RO_MANUAL otherwise, overriding any
previously determined reason; when manual recovery is not set, the
reason is the prior-phase reason if non-zero, else nv.recovery_request.
The context recovery-mode flag ends up set exactly when it was already
set or the resulting reason is non-zero. -/
theorem check_recovery_resolution (st : VbState) :
    (vb2_check_recovery st).sd.recovery_reason =
      (if st.ctx.force_recovery_mode then
        (if st.sd.recovery_reason = 0 ∧ st.nv.recovery_request = 0 ∧
            st.nv.recovery_subcode ≠ 0 then
          st.nv.recovery_subcode
        else VB2_RECOVERY_RO_MANUAL)
      else if st.sd.recovery_reason ≠ 0 then st.sd.recovery_reason
      else st.nv.recovery_request) ∧
    (vb2_check_recovery st).ctx.recovery_mode =
      (st.ctx.recovery_mode ||
        ((vb2_check_recovery st).sd.recovery_reason != 0)) := by
  simp only [vb2_check_recovery]
  repeat' split
  all_goals simp_all

/-- State for the C5 counterexample: NV initialized, slot 0 chosen,
try_next = 0, and the alternate slot 1 already failed on the previous
boot. -/
def exC5 : VbState :=
  { st0 with
    sd.status_nv_init := true,
    sd.status_chose_slot := true,
    sd.last_fw_slot := 1,
    sd.last_fw_result := VB2_FW_RESULT_FAILURE }

/-- Claim C5 counterexample: even though the alternate slot already
failed on the previous boot, vb2api_fail still rewrites nv.try_next to
the other slot (from 0 to 1), so the flip is not suppressed in that
case as the claim states. -/
theorem api_fail_try_next_cex :
    (vb2api_fail exC5 7 8).nv.try_next ≠ exC5.nv.try_next ∧
    (vb2api_fail exC5 7 8).nv.try_next = 1 - exC5.sd.fw_slot := by
  decide

/-- Claim C5 (amended): for every state in which a firmware slot has
been chosen, vb2api_fail sets nv.fw_result to FAILURE, sets
nv.try_count to 0, and sets nv.try_next to the other slot
unconditionally; when the alternate slot already failed on the previous
boot it additionally falls through to record a recovery request. -/
theorem api_fail_slot_chosen (st : VbState) (r s : Nat)
    (h : st.sd.status_chose_slot = true) :
    (vb2api_fail st r s).nv.fw_result = VB2_FW_RESULT_FAILURE ∧
    (vb2api_fail st r s).nv.try_count = 0 ∧
    (vb2api_fail st r s).nv.try_next = 1 - st.sd.fw_slot := by
  simp only [vb2api_fail, vb2_fail_set_recovery, vb2_nv_init]
  repeat' split
  all_goals simp_all

/-- Claim C5 witness: at the concrete chosen-slot state exC5,
vb2api_fail(7, 8) sets fw_result = FAILURE, try_count = 0, and
try_next = 1. -/
theorem api_fail_slot_chosen_witness :
    (vb2api_fail exC5 7 8).nv.fw_result = VB2_FW_RESULT_FAILURE ∧
    (vb2api_fail exC5 7 8).nv.try_count = 0 ∧
    (vb2api_fail exC5 7 8).nv.try_next = 1 - exC5.sd.fw_slot :=
  api_fail_slot_chosen exC5 7 8 (by decide)

/-- Claim C6: if the previous boot result was TRYING, the previously
tried slot equals nv.try_next, and nv.try_count is 0, then
vb2_select_fw_slot selects the other slot (1 - try_next) and rewrites
nv.try_next to that slot. -/
theorem select_fw_slot_try_exhausted (st : VbState)
    (h1 : st.nv.fw_result = VB2_FW_RESULT_TRYING)
    (h2 : st.nv.fw_tried = st.nv.try_next)
    (h3 : st.nv.try_count = 0) :
    (vb2_select_fw_slot st).sd.fw_slot = 1 - st.nv.try_next ∧
    (vb2_select_fw_slot st).nv.try_next = 1 - st.nv.try_next := by
  simp only [vb2_select_fw_slot]
  repeat' split
  all_goals simp_all

/-- State for the C6 witness, the S5 scenario of the specification:
try_next = 0, fw_tried = 0, fw_result = TRYING, try_count = 0. -/
def stC6 : VbState :=
  { st0 with nv.fw_result := VB2_FW_RESULT_TRYING }

/-- Claim C6 witness: from NV state try_next = 0, fw_tried = 0,
fw_result = TRYING, try_count = 0, the selected slot is 1 and
nv.try_next becomes 1. -/
theorem select_fw_slot_try_exhausted_witness :
    (vb2_select_fw_slot stC6).sd.fw_slot = 1 ∧
    (vb2_select_fw_slot stC6).nv.try_next = 1 := by
  simpa [stC6, st0, nv0] using
    select_fw_slot_try_exhausted stC6 (by decide) (by decide) (by decide)

/-- Claim C10: when a clear-TPM-owner request is pending,
vb2_check_tpm_clear zeroes the request field before attempting the
clear, so the request is consumed even when the clear fails; on failure
the state is exactly the failure helper applied with reason
tpm-clear-owner to the request-cleared state and the done field is
unchanged, and on success the done field is set to 1. -/
theorem check_tpm_clear_consumed_once (rv : Nat) (st : VbState)
    (h : st.nv.clear_tpm_owner_request ≠ 0) :
    (vb2_check_tpm_clear rv st).2.nv.clear_tpm_owner_request = 0 ∧
    (rv ≠ 0 →
      (vb2_check_tpm_clear rv st).1 = Except.error rv ∧
      (vb2_check_tpm_clear rv st).2 =
        vb2api_fail { st with nv.clear_tpm_owner_request := 0 }
          VB2_RECOVERY_TPM_CLEAR_OWNER (rv % 256) ∧
      (vb2_check_tpm_clear rv st).2.nv.clear_tpm_owner_done =
        st.nv.clear_tpm_owner_done) ∧
    (rv = 0 →
      (vb2_check_tpm_clear rv st).1 = Except.ok () ∧
      (vb2_check_tpm_clear rv st).2.nv.clear_tpm_owner_done = 1) := by
  have huntouched := vb2api_fail_untouched
    { st with nv.clear_tpm_owner_request := 0 }
    VB2_RECOVERY_TPM_CLEAR_OWNER (rv % 256)
  simp only [vb2_check_tpm_clear]
  repeat' split
  all_goals simp_all

/-- State for the C10 witness: a pending clear-TPM-owner request. -/
def stC10 : VbState :=
  { st0 with nv.clear_tpm_owner_request := 1 }

/-- Claim C10 witness: with a pending request and a failing owner clear
(return value 3), the request field is 0 afterwards, the error is
propagated, and the done field stays 0. -/
theorem check_tpm_clear_consumed_once_witness :
    (vb2_check_tpm_clear 3 stC10).2.nv.clear_tpm_owner_request = 0 ∧
    (vb2_check_tpm_clear 3 stC10).1 = Except.error 3 ∧
    (vb2_check_tpm_clear 3 stC10).2.nv.clear_tpm_owner_done = 0 := by
  have h := check_tpm_clear_consumed_once 3 stC10 (by decide)
  exact ⟨h.1, (h.2.1 (by decide)).1, by
    simpa [stC10, st0, nv0] using (h.2.1 (by decide)).2.2⟩

/-- Claim C9: whenever vb2_check_dev_switch resolves the effective mode
to normal (non-developer), the four developer-boot NV options are all
set to 0 in the resulting state, on both the success and the
owner-clear-failure paths. -/
theorem dev_switch_normal_clears_dev_boot (rv : Nat) (st : VbState)
    (h : dev_switch_is_dev st = false) :
    (vb2_check_dev_switch rv st).2.nv.dev_boot_usb = 0 ∧
    (vb2_check_dev_switch rv st).2.nv.dev_boot_legacy = 0 ∧
    (vb2_check_dev_switch rv st).2.nv.dev_boot_signed_only = 0 ∧
    (vb2_check_dev_switch rv st).2.nv.dev_default_boot = 0 := by
  simp only [dev_switch_is_dev] at h
  simp only [vb2_check_dev_switch]
  have huntouched := vb2api_fail_untouched
  repeat' split
  all_goals simp_all

/-- State for the C9 witness: developer mode off everywhere, with the
developer-boot NV options set to nonzero values that must be wiped. -/
def stC9 : VbState :=
  { st0 with
    sd.status_secdata_firmware_init := true,
    secdata_fw_flag_last_boot_developer := true,
    nv.dev_boot_usb := 1,
    nv.dev_boot_legacy := 1,
    nv.dev_boot_signed_only := 1,
    nv.dev_default_boot := 2 }

/-- Claim C9 witness: at a concrete normal-mode state transitioning out
of developer mode, all four developer-boot NV options become 0. -/
theorem dev_switch_normal_clears_dev_boot_witness :
    (vb2_check_dev_switch 0 stC9).2.nv.dev_boot_usb = 0 ∧
    (vb2_check_dev_switch 0 stC9).2.nv.dev_boot_legacy = 0 ∧
    (vb2_check_dev_switch 0 stC9).2.nv.dev_boot_signed_only = 0 ∧
    (vb2_check_dev_switch 0 stC9).2.nv.dev_default_boot = 0 :=
  dev_switch_normal_clears_dev_boot 0 stC9 (by decide)

/-- Claim C1: for a keyblock that verifies against the root key (all
loading and verification steps succeed), if the data-key version is
below the upper 16 bits of the secdata firmware version counter and the
GBB disable-rollback flag is clear, vb2_load_fw_keyblock fails with the
keyblock version-rollback error and records recovery reason
fw-key-rollback through the failure helper; with the GBB flag set the
rollback check is ignored and phase 2 succeeds. -/
theorem fw_keyblock_rollback (env : FwKeyblockEnv) (st : VbState)
    (hwb1 : env.wb_root_key_ok = true) (hr1 : env.read_root_key_rv = 0)
    (hu : env.unpack_root_key_rv = 0) (hwb2 : env.wb_header_ok = true)
    (hr2 : env.read_header_rv = 0) (hwb3 : env.wb_full_ok = true)
    (hr3 : env.read_full_rv = 0) (hv : env.verify_keyblock_rv = 0)
    (hpk : env.packed_key_inside_rv = 0)
    (hsec : st.sd.fw_version_secdata < 2 ^ 32)
    (hroll : env.key_version < st.sd.fw_version_secdata / 2 ^ 16) :
    (st.gbb_disable_fw_rollback_check = false →
      vb2_load_fw_keyblock env st =
        (Except.error VB2_ERROR_FW_KEYBLOCK_VERSION_ROLLBACK,
         vb2api_fail st VB2_RECOVERY_FW_KEY_ROLLBACK
           (VB2_ERROR_FW_KEYBLOCK_VERSION_ROLLBACK % 256))) ∧
    (st.gbb_disable_fw_rollback_check = true →
      (vb2_load_fw_keyblock env st).1 = Except.ok ()) := by
  have hdiv : st.sd.fw_version_secdata / 2 ^ 16 < 2 ^ 16 := by
    apply Nat.div_lt_of_lt_mul
    calc st.sd.fw_version_secdata < 2 ^ 32 := hsec
    _ = 2 ^ 16 * 2 ^ 16 := by norm_num
  have hmax : ¬ env.key_version > VB2_MAX_KEY_VERSION := by
    simp only [VB2_MAX_KEY_VERSION]
    omega
  constructor <;> intro hflag <;>
    simp_all [vb2_load_fw_keyblock, VB2_ERROR_FW_KEYBLOCK_VERSION_ROLLBACK]

/-- Environment for the C1 witness: every loading and verification
step succeeds and the keyblock carries data-key version 1. -/
def envC1 : FwKeyblockEnv :=
  { wb_root_key_ok := true, read_root_key_rv := 0,
    unpack_root_key_rv := 0, wb_header_ok := true, read_header_rv := 0,
    wb_full_ok := true, read_full_rv := 0, verify_keyblock_rv := 0,
    key_version := 1, keyblock_size := 2240, packed_key_inside_rv := 0,
    key_data_offset := 960, data_key_key_offset := 32,
    data_key_key_size := 1064 }

/-- State for the C1 witness: secdata firmware versions 0x20002, so the
stored key version is 2. -/
def stC1 : VbState :=
  { st0 with sd.fw_version_secdata := 0x20002 }

/-- Claim C1 witness: key version 1 against stored key version 2 with
the GBB flag clear yields the version-rollback error and the
fw-key-rollback failure record. -/
theorem fw_keyblock_rollback_witness :
    vb2_load_fw_keyblock envC1 stC1 =
      (Except.error VB2_ERROR_FW_KEYBLOCK_VERSION_ROLLBACK,
       vb2api_fail stC1 VB2_RECOVERY_FW_KEY_ROLLBACK
         (VB2_ERROR_FW_KEYBLOCK_VERSION_ROLLBACK % 256)) :=
  (fw_keyblock_rollback envC1 stC1 rfl rfl rfl rfl rfl rfl rfl rfl rfl
    (by decide) (by decide)).1 rfl

/-- Claim C2: with the preamble loading and verifying successfully and
its version in range, the composite firmware version
(key_version * 2^16 ||| preamble_version) is written to the secdata
firmware version counter if and only if it is strictly greater than the
current secdata value, the last boot's slot equals the selected slot,
and the last boot's result was SUCCESS; in every other case the counter
is left unchanged. -/
theorem fw_preamble_rollforward_gate (env : FwPreambleEnv) (st : VbState)
    (kv : Nat)
    (hdk : st.sd.data_key_size ≠ 0) (hu : env.unpack_key_rv = 0)
    (hwb1 : env.wb_header_ok = true) (hr1 : env.read_header_rv = 0)
    (hwb2 : env.wb_full_ok = true) (hr2 : env.read_full_rv = 0)
    (hv : env.verify_preamble_rv = 0)
    (hrange : env.firmware_version ≤ VB2_MAX_PREAMBLE_VERSION)
    (hkv : kv ≤ VB2_MAX_KEY_VERSION)
    (hfv : st.sd.fw_version = kv * 2 ^ 16 % 2 ^ 32) :
    (vb2_load_fw_preamble env st).2.secdata_fw_versions =
      (if kv * 2 ^ 16 ||| env.firmware_version > st.sd.fw_version_secdata ∧
          st.sd.last_fw_slot = st.sd.fw_slot ∧
          st.sd.last_fw_result = VB2_FW_RESULT_SUCCESS
       then kv * 2 ^ 16 ||| env.firmware_version
       else st.secdata_fw_versions) := by
  have hmod : kv * 2 ^ 16 % 2 ^ 32 = kv * 2 ^ 16 := by
    apply Nat.mod_eq_of_lt
    simp only [VB2_MAX_KEY_VERSION] at hkv
    omega
  rw [hmod] at hfv
  have hnotmax : ¬ env.firmware_version > VB2_MAX_PREAMBLE_VERSION :=
    Nat.not_lt.mpr hrange
  simp only [vb2_load_fw_preamble, hfv]
  rw [if_neg hdk]
  simp [hu, hwb1, hr1, hwb2, hr2, hv, hnotmax, vb2api_fail_secdata_fw]
  repeat' split
  all_goals simp_all [vb2api_fail_secdata_fw]
  all_goals omega

/-- Environment for the C2 witness: all steps succeed, preamble
firmware version 3. -/
def envC2 : FwPreambleEnv :=
  { unpack_key_rv := 0, wb_header_ok := true, read_header_rv := 0,
    wb_full_ok := true, read_full_rv := 0, verify_preamble_rv := 0,
    firmware_version := 3, preamble_size := 1000,
    preamble_offset := 3000 }

/-- State for the C2 witness (the S4 scenario of the specification):
key version 2 already combined into sd.fw_version, stored composite
version 0x20002, last boot on the same slot with result SUCCESS. -/
def stC2 : VbState :=
  { st0 with
    sd.data_key_size := 1096,
    sd.fw_version := 0x20000,
    sd.fw_version_secdata := 0x20002,
    sd.last_fw_result := VB2_FW_RESULT_SUCCESS,
    secdata_fw_versions := 0x20002 }

/-- Claim C2 witness: composite version 0x20003 against stored 0x20002
with a successful previous boot on the same slot rolls the secdata
counter forward to 0x20003. -/
theorem fw_preamble_rollforward_gate_witness :
    (vb2_load_fw_preamble envC2 stC2).2.secdata_fw_versions = 0x20003 := by
  have h := fw_preamble_rollforward_gate envC2 stC2 2 (by decide) rfl rfl
    rfl rfl rfl rfl (by decide) (by decide) (by decide)
  rw [h]
  decide

/-- Claim C7: in VbBootNormal, starting from a secdata kernel counter
equal to kernel_version_tpm_start, whenever the counter is changed it
is set to min(kernel_version_tpm, max(nv.kernel_max_rollforward,
kernel_version_tpm_start)), and the final counter is never below its
value at the start of the boot. -/
theorem boot_normal_kernel_cap (env : BootNormalEnv) (nv : Nv)
    (shared : Vb1Shared) (secd : Nat)
    (hstart : secd = shared.kernel_version_tpm_start) :
    ((VbBootNormal env nv shared secd).2.2.2 ≠ secd →
      (VbBootNormal env nv shared secd).2.2.2 =
        min env.kernel_version_tpm_after_load
          (max nv.kernel_max_rollforward shared.kernel_version_tpm_start)) ∧
    secd ≤ (VbBootNormal env nv shared secd).2.2.2 := by
  subst hstart
  simp only [VbBootNormal, vb2_reset_nv_requests]
  repeat' split
  all_goals constructor
  all_goals simp_all
  all_goals omega

/-- Environment for the C7 witness: the load succeeds and leaves
kernel_version_tpm at 10 with fw_result not TRYING. -/
def envC7 : BootNormalEnv :=
  { load_rv := 0, nv_after_load := nv0,
    kernel_version_tpm_after_load := 10 }

/-- NV store for the C7 witness: kernel_max_rollforward 5, no pending
display or diagnostic requests. -/
def nvC7 : Nv :=
  { nv0 with kernel_max_rollforward := 5 }

/-- Vboot1 shared data for the C7 witness: kernel version counter
started at 3. -/
def sharedC7 : Vb1Shared :=
  { kernel_version_tpm := 3, kernel_version_tpm_start := 3 }

/-- Claim C7 witness: with the loaded kernel version 10 capped by
max_rollforward 5 above the start value 3, the written counter is
min(10, max(5, 3)) = 5. -/
theorem boot_normal_kernel_cap_witness :
    (VbBootNormal envC7 nvC7 sharedC7 3).2.2.2 = 5 := by
  have h := boot_normal_kernel_cap envC7 nvC7 sharedC7 3 rfl
  rw [h.1 (by decide)]
  decide

/-- Claim C8: outside recovery mode, a commit failing with a
secdata-firmware-write or secdata-kernel-write error makes
vb2_commit_data record recovery reason rw-tpm-w-error through the
failure helper, invoke the commit callback a second time, and return
the original error; a commit failing with the nv-write error outside
recovery halts instead of returning. -/
theorem commit_data_error_contract (env : CommitEnv) (st : VbState)
    (hrec : st.ctx.recovery_mode = false) :
    ((env.rv1 = VB2_ERROR_SECDATA_FIRMWARE_WRITE ∨
      env.rv1 = VB2_ERROR_SECDATA_KERNEL_WRITE) →
      vb2_commit_data env st =
        (CommitOutcome.ret env.rv1, 2,
         vb2api_fail st VB2_RECOVERY_RW_TPM_W_ERROR (env.rv1 % 256))) ∧
    (env.rv1 = VB2_ERROR_NV_WRITE →
      vb2_commit_data env st = (CommitOutcome.died, 1, st)) := by
  constructor
  · rintro (h | h) <;>
      simp_all [vb2_commit_data, VB2_ERROR_SECDATA_FIRMWARE_WRITE,
        VB2_ERROR_SECDATA_KERNEL_WRITE]
  · intro h
    simp_all [vb2_commit_data, vb2_rec_or_die_continues,
      VB2_ERROR_NV_WRITE, VB2_ERROR_SECDATA_FIRMWARE_WRITE,
      VB2_ERROR_SECDATA_KERNEL_WRITE]

/-- Environment for the C8 witness: the first commit call fails with
the secdata-firmware-write error, the retry succeeds. -/
def envC8 : CommitEnv :=
  { rv1 := VB2_ERROR_SECDATA_FIRMWARE_WRITE, rv2 := 0 }

/-- Claim C8 witness: at the base state (not in recovery), the
secdata-firmware-write failure leads to two commit invocations, the
rw-tpm-w-error failure record, and the original error as result. -/
theorem commit_data_error_contract_witness :
    vb2_commit_data envC8 st0 =
      (CommitOutcome.ret VB2_ERROR_SECDATA_FIRMWARE_WRITE, 2,
       vb2api_fail st0 VB2_RECOVERY_RW_TPM_W_ERROR
         (VB2_ERROR_SECDATA_FIRMWARE_WRITE % 256)) :=
  (commit_data_error_contract envC8 st0 rfl).1 (Or.inl rfl)

end Vboot
